import Mathlib

/-!
Verification of the AAduino Zero CLI (src/examples/cli/main.c) against its
natural-language specification.  The console engine is shallowly embedded:
the foreground loop's line assembler, the power-mode handler, the halt
handler, the rfm/past/tempalert handlers and the memory dumper become pure
Lean functions over explicit state records; external collaborators
(cli_run, past_write_unit, systick, gpio) are parameters or recorded calls.
-/

namespace AAduinoCli

set_option maxRecDepth 4000

/-- MAX_LINE_LENGTH from main.c line 65. -/
def MAX_LINE_LENGTH : Nat := 80

/-- State of the line assembler inside main's foreground loop:
`line` is the accumulated characters (index `i` in the C code is
`line.length`), `dispatched` records each buffer content passed to
`cli_run`, and `echo` is the character stream written to the transcript
(`dbg_printf` of single characters, the newline, and the `% ` prompt). -/
structure LineState where
  line : List Char
  dispatched : List (List Char)
  echo : List Char
deriving DecidableEq, Repr

/-- One character of the foreground loop body (main.c lines 585-601):
CR is skipped; LF echoes a newline, dispatches the line if nonempty and
clears it, then echoes the prompt; any other character is echoed and
appended only while `i < MAX_LINE_LENGTH-2`; otherwise it is dropped. -/
def lineStep (s : LineState) (b : Char) : LineState :=
  if b = '\r' then
    s
  else if b = '\n' then
    if s.line.isEmpty then
      { s with echo := s.echo ++ ['\n', '%', ' '] }
    else
      { line := [],
        dispatched := s.dispatched ++ [s.line],
        echo := s.echo ++ ['\n', '%', ' '] }
  else if s.line.length < MAX_LINE_LENGTH - 2 then
    { s with line := s.line ++ [b], echo := s.echo ++ [b] }
  else
    s

/-- Feed a sequence of received characters to the line assembler. -/
def lineRun (s : LineState) (bs : List Char) : LineState :=
  bs.foldl lineStep s

/-- Initial state: `i = 0`, empty transcript, nothing dispatched. -/
def initLine : LineState := ⟨[], [], []⟩

/-- A state whose line buffer is full (MAX_LINE_LENGTH - 2 characters). -/
def fullLineState : LineState :=
  lineRun initLine (List.replicate (MAX_LINE_LENGTH - 2) 'a')

theorem lineRun_append (s : LineState) (xs ys : List Char) :
    lineRun s (xs ++ ys) = lineRun (lineRun s xs) ys :=
  List.foldl_append _ _ _ _

/-- Characters that are neither CR nor LF and fit under the bound are
appended to the line and echoed, and nothing is dispatched. -/
theorem lineRun_plain (cs : List Char) :
    ∀ s : LineState, (∀ c ∈ cs, c ≠ '\r' ∧ c ≠ '\n') →
    s.line.length + cs.length ≤ MAX_LINE_LENGTH - 2 →
    lineRun s cs = { s with line := s.line ++ cs, echo := s.echo ++ cs } := by
  induction cs with
  | nil => intro s _ _; simp [lineRun]
  | cons c cs ih =>
    intro s hplain hlen
    have hc : c ≠ '\r' ∧ c ≠ '\n' := hplain c (List.mem_cons_self c cs)
    have hlt : s.line.length < MAX_LINE_LENGTH - 2 := by
      simp only [List.length_cons] at hlen; omega
    have hstep : lineStep s c =
        { s with line := s.line ++ [c], echo := s.echo ++ [c] } := by
      simp [lineStep, hc.1, hc.2, hlt]
    have hrun : lineRun s (c :: cs) = lineRun (lineStep s c) cs := rfl
    rw [hrun, hstep, ih]
    · simp
    · intro d hd; exact hplain d (List.mem_cons_of_mem c hd)
    · simp only [List.length_append, List.length_cons, List.length_nil] at hlen ⊢
      omega

/-- C1 counterexample: a line of MAX_LINE_LENGTH - 1 = 79 characters
followed by LF does NOT dispatch all 79 characters; the foreground loop
appends only while `i < MAX_LINE_LENGTH-2`, so the dispatched content is
the first 78 characters and the 79th is dropped. -/
theorem C1_counterexample :
    (lineRun initLine
        (List.replicate (MAX_LINE_LENGTH - 1) 'a' ++ ['\n'])).dispatched
      = [List.replicate (MAX_LINE_LENGTH - 2) 'a'] ∧
    (lineRun initLine
        (List.replicate (MAX_LINE_LENGTH - 1) 'a' ++ ['\n'])).dispatched
      ≠ [List.replicate (MAX_LINE_LENGTH - 1) 'a'] := by
  constructor
  · decide
  · decide

/-- C1 (amended): a line of exactly MAX_LINE_LENGTH - 2 non-terminator
characters followed by LF dispatches with its full content intact: all
MAX_LINE_LENGTH - 2 characters are stored and passed to `cli_run`. -/
theorem C1_full_line_dispatched (cs : List Char)
    (hplain : ∀ c ∈ cs, c ≠ '\r' ∧ c ≠ '\n')
    (hlen : cs.length = MAX_LINE_LENGTH - 2) :
    (lineRun initLine (cs ++ ['\n'])).dispatched = [cs] := by
  cases cs with
  | nil => simp [MAX_LINE_LENGTH] at hlen
  | cons c t =>
    have hbound : (initLine.line.length + (c :: t).length ≤ MAX_LINE_LENGTH - 2) := by
      simp only [initLine, List.length_nil]
      omega
    have hrun := lineRun_plain (c :: t) initLine hplain hbound
    rw [lineRun_append, hrun]
    simp [lineRun, lineStep, initLine]

/-- Witness for C1 (amended) at 78 copies of the letter a. -/
theorem C1_full_line_dispatched_witness :
    (lineRun initLine
        (List.replicate (MAX_LINE_LENGTH - 2) 'a' ++ ['\n'])).dispatched
      = [List.replicate (MAX_LINE_LENGTH - 2) 'a'] :=
  C1_full_line_dispatched (List.replicate (MAX_LINE_LENGTH - 2) 'a')
    (by decide) (by decide)

/-- C2 counterexample: a line feed received while the current line is
empty dispatches nothing (the code guards dispatch with `i > 0`), even
though the claim says every LF triggers a dispatch of the frozen
content; only the newline and the prompt are echoed. -/
theorem C2_counterexample :
    (lineRun initLine ['\n']).dispatched = [] ∧
    (lineRun initLine ['\n']).echo = ['\n', '%', ' '] := by
  constructor
  · decide
  · decide

/-- C2 (amended): CR is always ignored; an LF received with a nonempty
current line terminates it, dispatches its frozen content and clears the
line for reuse; an LF with an empty line dispatches nothing and only
echoes the newline and prompt. -/
theorem C2_terminator_step (s : LineState) :
    lineStep s '\r' = s ∧
    (s.line ≠ [] →
      lineStep s '\n' =
        { line := [], dispatched := s.dispatched ++ [s.line],
          echo := s.echo ++ ['\n', '%', ' '] }) ∧
    (s.line = [] →
      lineStep s '\n' = { s with echo := s.echo ++ ['\n', '%', ' '] }) := by
  refine ⟨rfl, ?_, ?_⟩
  · intro h
    simp [lineStep, List.isEmpty_iff, h]
  · intro h
    simp [lineStep, List.isEmpty_iff, h]

/-- Witness for C2 (amended) at a one-character line. -/
theorem C2_terminator_step_witness :
    lineStep ⟨['a'], [], []⟩ '\r' = ⟨['a'], [], []⟩ ∧
    lineStep ⟨['a'], [], []⟩ '\n' = ⟨[], [['a']], ['\n', '%', ' ']⟩ := by
  refine ⟨(C2_terminator_step ⟨['a'], [], []⟩).1, ?_⟩
  have h := (C2_terminator_step ⟨['a'], [], []⟩).2.1 (by decide)
  simpa using h

/-- C3 counterexample: once the line holds MAX_LINE_LENGTH - 2
characters, a further non-terminator character is dropped WITHOUT being
echoed: the transcript is unchanged, contradicting the claim that such
characters are still echoed. -/
theorem C3_counterexample :
    fullLineState.line.length = MAX_LINE_LENGTH - 2 ∧
    (lineStep fullLineState 'b').echo = fullLineState.echo ∧
    (lineStep fullLineState 'b').line = fullLineState.line := by
  refine ⟨by decide, ?_, ?_⟩
  · decide
  · decide

/-- C3 (amended): every non-terminator character arriving once the line
holds MAX_LINE_LENGTH - 2 characters is discarded and NOT echoed: the
whole state is unchanged, until the next terminator. -/
theorem C3_overlong_discarded_silently (s : LineState) (b : Char)
    (hb : b ≠ '\r' ∧ b ≠ '\n')
    (hfull : MAX_LINE_LENGTH - 2 ≤ s.line.length) :
    lineStep s b = s := by
  have hnlt : ¬ s.line.length < MAX_LINE_LENGTH - 2 := by omega
  simp [lineStep, hb.1, hb.2, hnlt]

/-- Witness for C3 (amended) at a full line buffer. -/
theorem C3_overlong_discarded_silently_witness :
    lineStep fullLineState 'x' = fullLineState :=
  C3_overlong_discarded_silently fullLineState 'x' (by decide) (by decide)

/-- State touched by power_handler (main.c lines 448-462): the
`low_power` flag (true models the LowPower mode, false Active), whether
the systick service is running (systick_init / systick_deinit are the
external tick service), and the transcript. -/
structure PowerState where
  low_power : Bool
  tick_running : Bool
  transcript : List String
deriving DecidableEq, Repr

/-- power_handler from main.c: argument "low" stops systick, sets the
flag and prints OK; "normal" restarts systick, prints OK and clears the
flag; anything else prints an illegal-argument error. -/
def power_handler (arg : String) (s : PowerState) : PowerState :=
  if arg = "low" then
    { s with tick_running := false, low_power := true,
             transcript := s.transcript ++ ["OK\n"] }
  else if arg = "normal" then
    { s with tick_running := true,
             transcript := s.transcript ++ ["OK\n"], low_power := false }
  else
    { s with transcript := s.transcript ++ ["Error: illegal argument\n"] }

/-- C4: power_handler with "low" stops the tick service and sets the
mode flag to LowPower; with "normal" it restarts the tick service and
sets the flag to Active; with any other argument it emits the
illegal-argument error and leaves the flag and tick service unchanged. -/
theorem C4_power_handler_spec (arg : String) (s : PowerState) :
    ((power_handler "low" s).low_power = true ∧
     (power_handler "low" s).tick_running = false ∧
     (power_handler "low" s).transcript = s.transcript ++ ["OK\n"]) ∧
    ((power_handler "normal" s).low_power = false ∧
     (power_handler "normal" s).tick_running = true ∧
     (power_handler "normal" s).transcript = s.transcript ++ ["OK\n"]) ∧
    (arg ≠ "low" → arg ≠ "normal" →
      (power_handler arg s).low_power = s.low_power ∧
      (power_handler arg s).tick_running = s.tick_running ∧
      (power_handler arg s).transcript =
        s.transcript ++ ["Error: illegal argument\n"]) := by
  refine ⟨?_, ?_, ?_⟩
  · simp [power_handler]
  · simp [power_handler]
  · intro h1 h2
    simp [power_handler, h1, h2]

/-- Witness for C4 at the illegal argument "sideways". -/
theorem C4_power_handler_spec_witness :
    (power_handler "sideways" ⟨false, true, []⟩).low_power = false ∧
    (power_handler "sideways" ⟨false, true, []⟩).tick_running = true ∧
    (power_handler "sideways" ⟨false, true, []⟩).transcript =
      ["Error: illegal argument\n"] := by
  have h := (C4_power_handler_spec "sideways" ⟨false, true, []⟩).2.2
    (by decide) (by decide)
  simpa using h

/-- Output trace of halt_handler (main.c lines 178-185): it prints each
token of argv together with its index, then the Halted message, then
calls blinken_halt. -/
structure HaltTrace where
  echoed : List (Nat × String)
  haltedMsg : Bool
deriving DecidableEq, Repr

/-- halt_handler: the loop `for i in 0..argc-1: print i, argv[i]`
followed by the Halted message. -/
def halt_handler (argc : Nat) (argv : List String) : HaltTrace :=
  { echoed := (List.range argc).map (fun i => (i, argv.getD i "")),
    haltedMsg := true }

/-- Whether blinken_halt (main.c lines 465-477) has returned after
`fuel` passes of its while(1) loop: the body holds no break and no
return, so each pass just rechecks the constant-true condition. -/
def blinken_halt_returns_within : Nat → Bool
  | 0 => false
  | n + 1 => blinken_halt_returns_within n

/-- C5: every token passed to halt_handler is echoed (with its index) to
the transcript, and blinken_halt never returns within any finite number
of loop passes, so control never reaches the console loop again. -/
theorem C5_halt_echo_and_diverge (argv : List String) (i : Nat)
    (h : i < argv.length) :
    (i, argv.get ⟨i, h⟩) ∈ (halt_handler argv.length argv).echoed ∧
    (∀ fuel, blinken_halt_returns_within fuel = false) := by
  constructor
  · have hmem : i ∈ List.range argv.length := List.mem_range.mpr h
    refine List.mem_map.mpr ⟨i, hmem, ?_⟩
    have hval : argv.getD i "" = argv.get ⟨i, h⟩ := by
      simp [List.getD_eq_getElem?_getD, List.getElem?_eq_getElem h]
    rw [hval]
  · intro fuel
    induction fuel with
    | zero => rfl
    | succ n ih => simpa [blinken_halt_returns_within] using ih

/-- Witness for C5: halting with tokens halt and now echoes the second
token at index 1. -/
theorem C5_halt_echo_and_diverge_witness :
    ((1 : Nat), "now") ∈ (halt_handler 2 ["halt", "now"]).echoed ∧
    (∀ fuel, blinken_halt_returns_within fuel = false) :=
  C5_halt_echo_and_diverge ["halt", "now"] 1 (by decide)

/-- Full foreground-loop state for one iteration of main's while(1)
(main.c lines 582-609): the line buffer, the low_power flag, the record
of lines handed to cli_run, and the echoed character stream.  The
received bytes of the ring buffer are passed separately as the list of
characters that `ringbuf_get` yields during the inner poll. -/
structure MainState where
  line : List Char
  low_power : Bool
  dispatched : List (List Char)
  echo : List Char

/-- One character of the inner polling loop, parametric in the external
`cli_run` (cli.c is a collaborator outside this file's source): after
`cli_run` returns, the code resets `i = 0`, hence the line is cleared
whatever the handler did. -/
def mainCharStep (cliRun : List Char → MainState → MainState)
    (s : MainState) (b : Char) : MainState :=
  if b = '\r' then
    s
  else if b = '\n' then
    let s1 : MainState := { s with echo := s.echo ++ ['\n'] }
    let s2 : MainState :=
      if s1.line.isEmpty then s1
      else
        let s3 := cliRun s1.line { s1 with dispatched := s1.dispatched ++ [s1.line] }
        { s3 with line := [] }
    { s2 with echo := s2.echo ++ ['%', ' '] }
  else if s.line.length < MAX_LINE_LENGTH - 2 then
    { s with line := s.line ++ [b], echo := s.echo ++ [b] }
  else
    s

/-- The inner `while (ringbuf_get(&rx_buf, &b))` loop: it consumes every
byte the ring buffer yields, so the wait point below is reached only
after a full poll found no more characters. -/
def drainRx (cliRun : List Char → MainState → MainState) :
    MainState → List Char → MainState
  | s, [] => s
  | s, b :: rest => drainRx cliRun (mainCharStep cliRun s b) rest

/-- One iteration of the outer foreground loop: drain the ring buffer,
then, exactly when `low_power` is set, print the single diagnostic dot
and execute the wait instruction (the returned Bool records whether
__WFI ran). -/
def foreground_iter (cliRun : List Char → MainState → MainState)
    (rx : List Char) (s : MainState) : MainState × Bool :=
  let s1 := drainRx cliRun s rx
  if s1.low_power then ({ s1 with echo := s1.echo ++ ['.'] }, true)
  else (s1, false)

/-- C6: in every iteration of the foreground loop the wait instruction
runs if and only if, after the full poll of the ring buffer has yielded
no more characters, the low_power flag is set; exactly one diagnostic
dot is emitted before the wait; when the flag is clear the iteration
never blocks and emits no dot. -/
theorem C6_wfi_iff_low_power (cliRun : List Char → MainState → MainState)
    (rx : List Char) (s : MainState) :
    ((foreground_iter cliRun rx s).2 = true ↔
      (drainRx cliRun s rx).low_power = true) ∧
    ((drainRx cliRun s rx).low_power = true →
      (foreground_iter cliRun rx s).1.echo =
        (drainRx cliRun s rx).echo ++ ['.']) ∧
    ((drainRx cliRun s rx).low_power = false →
      foreground_iter cliRun rx s = (drainRx cliRun s rx, false)) := by
  cases h : (drainRx cliRun s rx).low_power <;>
    simp [foreground_iter, h]

/-- Witness for C6: a low-power state polling a lone CR executes the
wait and appends exactly one dot. -/
theorem C6_wfi_iff_low_power_witness :
    (foreground_iter (fun _ t => t) ['\r'] ⟨[], true, [], []⟩).2 = true ∧
    (foreground_iter (fun _ t => t) ['\r'] ⟨[], true, [], []⟩).1.echo =
      (drainRx (fun _ t => t) (⟨[], true, [], []⟩ : MainState) ['\r']).echo
        ++ ['.'] := by
  have h := C6_wfi_iff_low_power (fun _ t => t) ['\r']
    (⟨[], true, [], []⟩ : MainState)
  exact ⟨h.1.mpr rfl, h.2.1 rfl⟩

/-- C's atoi on the digit part: accumulate decimal digits, stop at the
first non-digit. -/
def atoiDigits : List Char → Nat → Nat
  | [], acc => acc
  | c :: cs, acc =>
      if c.isDigit then atoiDigits cs (10 * acc + (c.toNat - 48)) else acc

/-- C's atoi: skip leading whitespace, read an optional sign, then
decimal digits; returns 0 when no digits are present. -/
def atoi (s : String) : Int :=
  match s.toList.dropWhile
      (fun c => c == ' ' || c == '\t' || c == '\n' ||
                c == '\x0b' || c == '\x0c' || c == '\r') with
  | '-' :: cs => - (atoiDigits cs 0 : Int)
  | '+' :: cs => (atoiDigits cs 0 : Int)
  | cs => (atoiDigits cs 0 : Int)

/-- Conversion of an int to uint32_t (C cast semantics). -/
def toUint32 (z : Int) : Nat := (z % (4294967296 : Int)).toNat

/-- Payload of a past_write_unit call: a 32-bit word or a byte string. -/
inductive PastData where
  | word (v : Nat)
  | str (s : String)
deriving DecidableEq, Repr

/-- Modelled from the spec: pastunits.h (the parameter_id_t ids) is not
under src/; per §6 the units referenced by this core are the radio node
id, network id, gateway id, max transmit power and the 16-byte AES key,
each identified by a small integer id, taken here in that order. -/
def past_rfm_node_id : Nat := 1

/-- Modelled from the spec: see past_rfm_node_id. -/
def past_rfm_net_id : Nat := 2

/-- Modelled from the spec: see past_rfm_node_id. -/
def past_rfm_gateway_id : Nat := 3

/-- Modelled from the spec: see past_rfm_node_id. -/
def past_rfm_max_power : Nat := 4

/-- Modelled from the spec: see past_rfm_node_id. -/
def past_rfm_key : Nat := 5

/-- State seen by the rfm handler: every past_write_unit invocation
(unit id, payload, byte length) and the transcript.  Whether the store
accepts a write is the external parameter writeOk. -/
structure RfmState where
  writeCalls : List (Nat × PastData × Nat)
  transcript : List String
deriving DecidableEq, Repr

/-- rfm_set_uint32 (main.c lines 352-360): print id:value, write the
4-byte word to the unit, report OK or ERROR. -/
def rfm_set_uint32 (writeOk : Bool) (id value : Nat) (s : RfmState) :
    RfmState :=
  let s1 : RfmState :=
    { writeCalls := s.writeCalls ++ [(id, PastData.word value, 4)],
      transcript :=
        s.transcript ++ [toString id ++ ":" ++ toString value ++ "\n"] }
  if writeOk then { s1 with transcript := s1.transcript ++ ["OK\n"] }
  else { s1 with transcript := s1.transcript ++ ["ERROR\n"] }

/-- rfm_set_str (main.c lines 362-369): write len bytes of str to the
unit, report OK or ERROR. -/
def rfm_set_str (writeOk : Bool) (id : Nat) (str : String) (len : Nat)
    (s : RfmState) : RfmState :=
  let s1 : RfmState :=
    { s with writeCalls := s.writeCalls ++ [(id, PastData.str str, len)] }
  if writeOk then { s1 with transcript := s1.transcript ++ ["OK\n"] }
  else { s1 with transcript := s1.transcript ++ ["ERROR\n"] }

/-- The argc == 3 arm of rfm_handler (main.c lines 398-415): subcommands
id, net, gw, pwr write a word parsed by atoi; key checks
strlen(argv[2]) == 16 before writing 16 bytes; anything else is an
illegal command. -/
def rfm_handler_argc3 (writeOk : Bool) (cmd arg2 : String) (s : RfmState) :
    RfmState :=
  if cmd = "id" then
    rfm_set_uint32 writeOk past_rfm_node_id (toUint32 (atoi arg2)) s
  else if cmd = "net" then
    rfm_set_uint32 writeOk past_rfm_net_id (toUint32 (atoi arg2)) s
  else if cmd = "gw" then
    rfm_set_uint32 writeOk past_rfm_gateway_id (toUint32 (atoi arg2)) s
  else if cmd = "pwr" then
    rfm_set_uint32 writeOk past_rfm_max_power (toUint32 (atoi arg2)) s
  else if cmd = "key" then
    if arg2.length ≠ 16 then
      { s with transcript := s.transcript ++ ["ERROR: key must be 16 bytes\n"] }
    else
      rfm_set_str writeOk past_rfm_key arg2 16 s
  else
    { s with transcript := s.transcript ++ ["ERROR: Illegal command\n"] }

/-- C7: the rfm key subcommand with a key whose length is not 16 reports
an error and performs no past_write_unit call; with a 16-character key
exactly 16 bytes are written to the AES key unit. -/
theorem C7_rfm_key_length (writeOk : Bool) (key : String) (s : RfmState) :
    (key.length ≠ 16 →
      rfm_handler_argc3 writeOk "key" key s =
        { s with transcript :=
            s.transcript ++ ["ERROR: key must be 16 bytes\n"] }) ∧
    (key.length = 16 →
      (rfm_handler_argc3 writeOk "key" key s).writeCalls =
        s.writeCalls ++ [(past_rfm_key, PastData.str key, 16)]) := by
  constructor
  · intro h
    simp [rfm_handler_argc3, h]
  · intro h
    simp [rfm_handler_argc3, h, rfm_set_str]
    cases writeOk <;> simp

/-- Witness for C7 at a 5-character key and at a 16-character key. -/
theorem C7_rfm_key_length_witness :
    rfm_handler_argc3 true "key" "short" ⟨[], []⟩ =
      ⟨[], ["ERROR: key must be 16 bytes\n"]⟩ ∧
    (rfm_handler_argc3 true "key" "0123456789abcdef" ⟨[], []⟩).writeCalls =
      [(past_rfm_key, PastData.str "0123456789abcdef", 16)] := by
  constructor
  · have h := (C7_rfm_key_length true "short" ⟨[], []⟩).1 (by decide)
    simpa using h
  · have h := (C7_rfm_key_length true "0123456789abcdef" ⟨[], []⟩).2 (by decide)
    simpa using h

/-- One entry of the static command table (cli_command_t from cli.h):
name and the inclusive argument-count bounds; handlers are modelled
separately. -/
structure cli_command_t where
  cmd : String
  min_arg : Nat
  max_arg : Nat
deriving DecidableEq, Repr

/-- The command table from main.c lines 80-166 (names and arities). -/
def commands : List cli_command_t :=
  [⟨"help", 0, 0⟩,
   ⟨"halt", 0, 64⟩,
   ⟨"pastformat", 0, 0⟩,
   ⟨"pastread", 1, 1⟩,
   ⟨"pastwrite", 2, 2⟩,
   ⟨"pasterase", 1, 1⟩,
   ⟨"pastdump", 0, 1⟩,
   ⟨"temp", 0, 0⟩,
   ⟨"tempalert", 0, 2⟩,
   ⟨"rfm", 0, 3⟩,
   ⟨"rtc", 0, 0⟩,
   ⟨"power", 1, 1⟩]

/-- Result of one dispatch: unknown command, usage error, or handler
invocation with the total token count argc. -/
inductive DispatchOutcome where
  | unknown (tok : String)
  | usageError (cmd : String)
  | invoke (cmd : String) (argc : Nat)
deriving DecidableEq, Repr

/-- Modelled from the spec: cli_run (the tokenizer and dispatcher of
cli.c) is not under src/.  Per spec section 4.4: look up the first token
against every entry by exact string match, first match wins; no match
emits an unknown-command message and runs no handler; if the argument
count excluding the name falls outside [min_arg, max_arg] emit a usage
error and do not invoke; otherwise invoke handler(argc, tokens). -/
def dispatch (table : List cli_command_t) (t0 : String)
    (args : List String) : DispatchOutcome :=
  match table.find? (fun e => e.cmd == t0) with
  | none => DispatchOutcome.unknown t0
  | some e =>
    if e.min_arg ≤ args.length ∧ args.length ≤ e.max_arg then
      DispatchOutcome.invoke e.cmd (args.length + 1)
    else
      DispatchOutcome.usageError e.cmd

/-- temperature_alert_handler (main.c lines 259-272): with argc 3 print
the two parsed thresholds, with argc 1 print the alert pin level (read
from gpio_get, the external parameter alertLevel), otherwise do
nothing. -/
def temperature_alert_handler (alertLevel : Nat) (argc : Nat)
    (argv : List String) (t : List String) : List String :=
  match argc with
  | 3 => t ++ ["low:" ++ toString (atoi (argv.getD 1 "")) ++
               " high:" ++ toString (atoi (argv.getD 2 "")) ++ "\n"]
  | 1 => t ++ [toString alertLevel ++ "\n"]
  | _ => t

/-- C8: tempalert with exactly one argument passes the arity check of
the table entry (min_arg 0, max_arg 2) and is invoked; the handler's
switch on argc = 2 falls through to the default case, emitting nothing
and changing nothing. -/
theorem C8_tempalert_one_arg (alertLevel : Nat) (arg : String)
    (t : List String) :
    dispatch commands "tempalert" [arg] =
      DispatchOutcome.invoke "tempalert" 2 ∧
    temperature_alert_handler alertLevel 2 ["tempalert", arg] t = t := by
  constructor
  · rfl
  · rfl

/-- Trace of past_format_handler (main.c lines 187-199): how many times
past_init was called, and the transcript.  formatOk and initOk are the
results of the external past_format and past_init calls. -/
structure PastFormatTrace where
  initCalls : Nat
  transcript : List String
deriving DecidableEq, Repr

/-- past_format_handler: report a failed format, then unconditionally
call past_init and report OK or ERROR from its result. -/
def past_format_handler (formatOk initOk : Bool) (s : PastFormatTrace) :
    PastFormatTrace :=
  let s1 : PastFormatTrace :=
    if formatOk then s
    else { s with transcript := s.transcript ++ ["Past formatting failed\n"] }
  let s2 : PastFormatTrace := { s1 with initCalls := s1.initCalls + 1 }
  if initOk then { s2 with transcript := s2.transcript ++ ["OK\n"] }
  else { s2 with transcript := s2.transcript ++ ["ERROR\n"] }

/-- C9: past_format_handler always calls past_init exactly once, even
when past_format failed; when format fails and init succeeds the
transcript holds both the formatting-failed message and OK. -/
theorem C9_past_format_always_inits (formatOk initOk : Bool)
    (s : PastFormatTrace) :
    ((past_format_handler formatOk initOk s).initCalls = s.initCalls + 1) ∧
    (formatOk = false → initOk = true →
      (past_format_handler formatOk initOk s).transcript =
        s.transcript ++ ["Past formatting failed\n", "OK\n"]) := by
  constructor
  · cases formatOk <;> cases initOk <;> simp [past_format_handler]
  · intro h1 h2
    subst h1
    subst h2
    simp [past_format_handler]

/-- Witness for C9: format fails, init succeeds, empty transcript. -/
theorem C9_past_format_always_inits_witness :
    (past_format_handler false true ⟨0, []⟩).initCalls = 1 ∧
    (past_format_handler false true ⟨0, []⟩).transcript =
      ["Past formatting failed\n", "OK\n"] := by
  have h := C9_past_format_always_inits false true ⟨0, []⟩
  exact ⟨h.1, by simpa using h.2 rfl rfl⟩

/-- uint32_t wraparound modulus. -/
def UINT32_LIMIT : Nat := 4294967296

/-- LINE_WIDTH from main.c line 479. -/
def LINE_WIDTH : Nat := 16

/-- Output of dump_mem (main.c lines 481-493): the summary line's two
addresses, the address printed at the head of each 16-byte row, and
every byte printed; all address arithmetic is uint32_t, so
address + length - 1 wraps modulo 2^32. -/
structure DumpOutput where
  startAddr : Nat
  endAddr : Nat
  rowHeaders : List Nat
  bytes : List Nat
deriving DecidableEq, Repr

/-- dump_mem over the memory byte function mem: summary from address to
address + length - 1 (uint32_t arithmetic), a row header every
LINE_WIDTH bytes, and the length bytes read from p[0..length-1]. -/
def dump_mem (mem : Nat → Nat) (address length : Nat) : DumpOutput :=
  { startAddr := address % UINT32_LIMIT,
    endAddr := (address + length + (UINT32_LIMIT - 1)) % UINT32_LIMIT,
    rowHeaders :=
      ((List.range length).filter (fun i => i % LINE_WIDTH == 0)).map
        (fun i => (address + i) % UINT32_LIMIT),
    bytes :=
      (List.range length).map
        (fun i => mem ((address + i) % UINT32_LIMIT) % 256) }

/-- C10: dump_mem with length 0 emits no row and no byte, and its
summary end address is start_address - 1 wrapped modulo 2^32 (stated as
adding 2^32 - 1, which equals subtracting 1 in uint32_t arithmetic); at
start_address 0 the printed range end wraps to 0xffffffff. -/
theorem C10_dump_mem_zero (mem : Nat → Nat) (address : Nat) :
    (dump_mem mem address 0).rowHeaders = [] ∧
    (dump_mem mem address 0).bytes = [] ∧
    (dump_mem mem address 0).endAddr =
      (address + (UINT32_LIMIT - 1)) % UINT32_LIMIT ∧
    (dump_mem mem 0 0).endAddr = 4294967295 := by
  refine ⟨?_, ?_, ?_, ?_⟩
  · simp [dump_mem]
  · simp [dump_mem]
  · simp [dump_mem]
  · simp [dump_mem, UINT32_LIMIT]

end AAduinoCli
